import Mathlib

/-!
Shallow embedding of `src/backend/app/model_factory.py`: the dynamic
model-factory system that derives, per entity schema, the seven model
variants (base, create, update, update_me, table, public, list_public).

Python dictionaries are embedded as association lists in insertion order
(assignment to an existing key replaces the value in place, a new key is
appended).  Python `typing.Optional[X]` collapses `Optional[Optional[X]]`
to `Optional[X]`; the embedding mirrors that in `mkOptional`.  Mutation of
the shared `FieldMetadata` objects (the `metadata.field_type = ...`
assignments in `_create_field`) is embedded by explicit state passing: each
operation returns the updated schema/factory together with its result.
-/

namespace ModelFactory

/-- Python type expressions appearing in the schemas and generated models. -/
inductive Ty where
  | emailStr
  | str
  | bool
  | uuid
  | int
  | opt (t : Ty)
  | listOf (t : Ty)
  /-- A reference to a generated model class, by its class name. -/
  | modelRef (name : String)
deriving DecidableEq, Repr

/-- `typing.Optional[X]`: `Optional[Optional[X]]` collapses to `Optional[X]`. -/
def mkOptional : Ty → Ty
  | Ty.opt t => Ty.opt t
  | t => Ty.opt t

/-- Whether a Python type expression is `Optional[...]`. -/
def Ty.isOpt : Ty → Bool
  | Ty.opt _ => true
  | _ => false

/-- Python values used as field defaults in this code (`None`, `True`, `False`). -/
inductive Value where
  | none
  | bool (b : Bool)
deriving DecidableEq, Repr

/-- `FieldMetadata.__init__`: value object describing one entity field.
`validation_rules`, `business_constraints` and `ui_hints` keep only their
keys/names: no operation in the source ever reads their values. -/
structure FieldMetadata where
  field_type : Ty
  default : Value := Value.none
  min_length : Option Nat := Option.none
  max_length : Option Nat := Option.none
  unique : Bool := false
  index : Bool := false
  nullable : Bool := false
  primary_key : Bool := false
  foreign_key : Option String := Option.none
  description : Option String := Option.none
  validation_rules : List String := []
  business_constraints : List String := []
  ui_hints : List String := []
deriving DecidableEq, Repr

/-- One relationship descriptor: `{'type': ..., 'kwargs': {...}}`. -/
structure RelConfig where
  type : Ty
  back_populates : Option String := Option.none
  cascade_delete : Bool := false
deriving DecidableEq, Repr

/-- `ModelSchema`: entity name plus ordered field and relationship maps. -/
structure ModelSchema where
  name : String
  fields : List (String × FieldMetadata)
  relationships : List (String × RelConfig) := []
deriving DecidableEq, Repr

/-- The keyword arguments accumulated in `field_kwargs` and passed to
`Field(**field_kwargs)`.  `Option.none` / `false` means the kwarg is absent
(the source only ever sets `unique`/`index`/`primary_key` to `True`).
`default_factory_uuid4` records the `'default_factory': uuid.uuid4` kwarg. -/
structure FieldDef where
  default : Option Value := Option.none
  default_factory_uuid4 : Bool := false
  primary_key : Bool := false
  foreign_key : Option String := Option.none
  min_length : Option Nat := Option.none
  max_length : Option Nat := Option.none
  unique : Bool := false
  index : Bool := false
deriving DecidableEq, Repr

/-- A value of a generated model's field map: either a `Field(...)` or a
`Relationship(...)`. -/
inductive FieldVal where
  | fld (f : FieldDef)
  | rel (r : RelConfig)
deriving DecidableEq, Repr

/-- Python dict assignment `d[k] = v` on an insertion-ordered dict:
replace in place when the key exists, append otherwise. -/
def dictInsert {α : Type} (l : List (String × α)) (k : String) (v : α) :
    List (String × α) :=
  if l.any (fun p => p.1 = k) then
    l.map (fun p => if p.1 = k then (k, v) else p)
  else
    l ++ [(k, v)]

/-- The tail of `_create_field`: `# Apply standard field constraints`.
Python truthiness: `if metadata.min_length:` is false for `None` and `0`. -/
def applyStdConstraints (metadata : FieldMetadata) (kw : FieldDef) : FieldDef :=
  let kw := match metadata.min_length with
    | Option.some n => if n ≠ 0 then { kw with min_length := Option.some n } else kw
    | Option.none => kw
  let kw := match metadata.max_length with
    | Option.some n => if n ≠ 0 then { kw with max_length := Option.some n } else kw
    | Option.none => kw
  let kw := if metadata.unique then { kw with unique := true } else kw
  let kw := if metadata.index then { kw with index := true } else kw
  kw

/-- `BaseModelFactory._create_field`.  Returns the (possibly mutated)
metadata together with `Option.none` when the field is excluded from the
variant, or the generated `Field` kwargs.  The `elif` chain of the source
is rendered as conditionals guarded by the `for_model_type` string; the
branches are mutually exclusive exactly as in the source.  The final
`return Field(**field_kwargs) if field_kwargs else Field()` always produces
a `Field`, so it is embedded as `Option.some kw`. -/
def createField (field_name : String) (metadata : FieldMetadata)
    (for_model_type : String) : FieldMetadata × Option FieldDef :=
  if for_model_type = "update_me" ∧
      (field_name = "password" ∨ field_name = "is_superuser") then
    (metadata, Option.none)
  else if for_model_type = "public" ∧
      (field_name = "hashed_password" ∨ field_name = "password") then
    (metadata, Option.none)
  else
    -- `metadata.field_type = Optional[metadata.field_type]` (update / update_me)
    let metadata :=
      if (for_model_type = "update" ∧ field_name ≠ "id") ∨ for_model_type = "update_me" then
        { metadata with field_type := mkOptional metadata.field_type }
      else metadata
    let kw : FieldDef := {}
    let kw :=
      if for_model_type = "create" ∧ metadata.nullable ∧ field_name ≠ "id" then
        { kw with default := Option.some metadata.default }
      else if (for_model_type = "update" ∧ field_name ≠ "id") ∨ for_model_type = "update_me" then
        { kw with default := Option.some Value.none }
      else kw
    let kw :=
      if for_model_type = "table" ∧ field_name = "id" then
        { kw with default_factory_uuid4 := true, primary_key := true }
      else kw
    let kw :=
      if for_model_type = "table" then
        match metadata.foreign_key with
        | Option.some fk => { kw with foreign_key := Option.some fk }
        | Option.none => kw
      else kw
    let kw := applyStdConstraints metadata kw
    let kw :=
      if field_name = "email" ∧ (for_model_type = "create" ∨ for_model_type = "update") then
        { kw with max_length := Option.some 255 }
      else kw
    (metadata, Option.some kw)

/-- `BaseModelFactory._generate_model_fields`.  Iterates the schema's field
dict in order, collecting the non-excluded fields as
`(metadata.field_type, field_def)` pairs (with the metadata read after the
in-place mutation done by `_create_field`), then adds the relationship
entries for `table` models.  Returns the mutated schema and the generated
field dict. -/
def generateModelFields (schema : ModelSchema) (for_model_type : String) :
    ModelSchema × List (String × Ty × FieldVal) :=
  let results := schema.fields.map
    (fun p => (p.1, createField p.1 p.2 for_model_type))
  let newFields := results.map (fun p => (p.1, p.2.1))
  let fields := results.filterMap
    (fun p => p.2.2.map (fun fd => (p.1, p.2.1.field_type, FieldVal.fld fd)))
  let fields :=
    if for_model_type = "table" then
      schema.relationships.foldl
        (fun acc r => dictInsert acc r.1 (r.2.type, FieldVal.rel r.2)) fields
    else fields
  ({ schema with fields := newFields }, fields)

/-- A generated model class (the result of `create_model(...)`).  `base` is
the `__base__` argument: `Option.none` is the `SQLModel` root, and
`Option.some (n, fs)` a parent class of name `n` with field map `fs` (every
parent class passed by this code is itself rooted directly at `SQLModel`,
so its own field map is its whole field map).  `table` records
`__table__=True`. -/
structure Model where
  name : String
  base : Option (String × List (String × Ty × FieldVal)) := Option.none
  table : Bool := false
  ownFields : List (String × Ty × FieldVal)
deriving DecidableEq, Repr

/-- The effective field map of a generated class: the parent's fields
updated by the class's own field dict (pydantic inheritance: a child field
overrides the parent's in place, a new field is appended). -/
def Model.fieldSet (m : Model) : List (String × Ty × FieldVal) :=
  match m.base with
  | Option.none => m.ownFields
  | Option.some p => m.ownFields.foldl (fun acc f => dictInsert acc f.1 f.2) p.2

/-- The field names of a generated class, inherited fields included. -/
def Model.fieldNames (m : Model) : List String :=
  m.fieldSet.map (fun p => p.1)

/-- `BaseModelFactory.__init__`: the schema plus one cache slot per variant. -/
structure Factory where
  schema : ModelSchema
  base_model : Option Model := Option.none
  create_model : Option Model := Option.none
  update_model : Option Model := Option.none
  update_me_model : Option Model := Option.none
  table_model : Option Model := Option.none
  public_model : Option Model := Option.none
  list_public_model : Option Model := Option.none
deriving DecidableEq, Repr

/-- `BaseModelFactory.get_base_model`. -/
def Factory.get_base_model (f : Factory) : Factory × Model :=
  match f.base_model with
  | Option.some m => (f, m)
  | Option.none =>
    let r := generateModelFields f.schema "base"
    let m : Model := { name := f.schema.name ++ "Base", ownFields := r.2 }
    ({ f with schema := r.1, base_model := Option.some m }, m)

/-- `BaseModelFactory.get_create_model` (`__base__` is the base model). -/
def Factory.get_create_model (f : Factory) : Factory × Model :=
  match f.create_model with
  | Option.some m => (f, m)
  | Option.none =>
    let fb := f.get_base_model
    let f := fb.1
    let r := generateModelFields f.schema "create"
    let m : Model := { name := f.schema.name ++ "Create",
                       base := Option.some (fb.2.name, fb.2.ownFields),
                       ownFields := r.2 }
    ({ f with schema := r.1, create_model := Option.some m }, m)

/-- `BaseModelFactory.get_update_model` (`__base__` is the base model). -/
def Factory.get_update_model (f : Factory) : Factory × Model :=
  match f.update_model with
  | Option.some m => (f, m)
  | Option.none =>
    let fb := f.get_base_model
    let f := fb.1
    let r := generateModelFields f.schema "update"
    let m : Model := { name := f.schema.name ++ "Update",
                       base := Option.some (fb.2.name, fb.2.ownFields),
                       ownFields := r.2 }
    ({ f with schema := r.1, update_model := Option.some m }, m)

/-- `BaseModelFactory.get_update_me_model` (`__base__` is plain `SQLModel`). -/
def Factory.get_update_me_model (f : Factory) : Factory × Model :=
  match f.update_me_model with
  | Option.some m => (f, m)
  | Option.none =>
    let r := generateModelFields f.schema "update_me"
    let m : Model := { name := f.schema.name ++ "UpdateMe", ownFields := r.2 }
    ({ f with schema := r.1, update_me_model := Option.some m }, m)

/-- `BaseModelFactory.get_table_model` (`__base__` is the base model,
`__table__=True`). -/
def Factory.get_table_model (f : Factory) : Factory × Model :=
  match f.table_model with
  | Option.some m => (f, m)
  | Option.none =>
    let fb := f.get_base_model
    let f := fb.1
    let r := generateModelFields f.schema "table"
    let m : Model := { name := f.schema.name,
                       base := Option.some (fb.2.name, fb.2.ownFields),
                       table := true,
                       ownFields := r.2 }
    ({ f with schema := r.1, table_model := Option.some m }, m)

/-- `BaseModelFactory.get_public_model` (`__base__` is the base model;
afterwards `fields['id'] = (uuid.UUID, Field())` is forced into the dict). -/
def Factory.get_public_model (f : Factory) : Factory × Model :=
  match f.public_model with
  | Option.some m => (f, m)
  | Option.none =>
    let fb := f.get_base_model
    let f := fb.1
    let r := generateModelFields f.schema "public"
    let fields := dictInsert r.2 "id" (Ty.uuid, FieldVal.fld {})
    let m : Model := { name := f.schema.name ++ "Public",
                       base := Option.some (fb.2.name, fb.2.ownFields),
                       ownFields := fields }
    ({ f with schema := r.1, public_model := Option.some m }, m)

/-- `BaseModelFactory.get_list_public_model` (`__base__` is plain `SQLModel`;
fields `data : List[public_model]` and `count : int`). -/
def Factory.get_list_public_model (f : Factory) : Factory × Model :=
  match f.list_public_model with
  | Option.some m => (f, m)
  | Option.none =>
    let fp := f.get_public_model
    let f := fp.1
    let m : Model := { name := f.schema.name ++ "sPublic",
                       ownFields :=
                         [("data", Ty.listOf (Ty.modelRef fp.2.name), FieldVal.fld {}),
                          ("count", Ty.int, FieldVal.fld {})] }
    ({ f with list_public_model := Option.some m }, m)

/-- `BaseModelFactory.get_all_models`: the seven variants, generated in the
order of the dict literal (base, create, update, update_me, table, public,
list_public). -/
def Factory.get_all_models (f : Factory) : Factory × List (String × Model) :=
  let r1 := f.get_base_model
  let r2 := r1.1.get_create_model
  let r3 := r2.1.get_update_model
  let r4 := r3.1.get_update_me_model
  let r5 := r4.1.get_table_model
  let r6 := r5.1.get_public_model
  let r7 := r6.1.get_list_public_model
  (r7.1,
   [("base", r1.2), ("create", r2.2), ("update", r3.2), ("update_me", r4.2),
    ("table", r5.2), ("public", r6.2), ("list_public", r7.2)])

/-- `UserModelFactory.__init__`'s schema.  (The `default_factory=uuid.uuid4`
keyword passed for `id` is not a parameter `FieldMetadata.__init__` accepts;
the remaining keywords are embedded as written.) -/
def user_schema : ModelSchema :=
  { name := "User",
    fields :=
      [("email",
        { field_type := Ty.emailStr, unique := true, index := true,
          max_length := Option.some 255,
          description := Option.some "User's email address",
          business_constraints := ["domain_validation"],
          ui_hints := ["input_type"] }),
       ("is_active",
        { field_type := Ty.bool, default := Value.bool true,
          description := Option.some "Whether the user account is active" }),
       ("is_superuser",
        { field_type := Ty.bool, default := Value.bool false,
          description := Option.some "Whether the user has admin privileges",
          business_constraints := ["admin_only_edit"] }),
       ("full_name",
        { field_type := Ty.opt Ty.str, default := Value.none,
          max_length := Option.some 255,
          description := Option.some "User's full name" }),
       ("password",
        { field_type := Ty.str, min_length := Option.some 8,
          max_length := Option.some 40,
          description := Option.some "User's password",
          validation_rules := ["complexity_check", "not_common_password"],
          business_constraints := ["hash_before_store"] }),
       ("hashed_password",
        { field_type := Ty.str,
          description := Option.some "Hashed password for storage",
          business_constraints := ["never_expose"] }),
       ("id",
        { field_type := Ty.uuid, primary_key := true })],
    relationships :=
      [("items",
        { type := Ty.listOf (Ty.modelRef "Item"),
          back_populates := Option.some "owner", cascade_delete := true })] }

/-- `ItemModelFactory.__init__`'s schema. -/
def item_schema : ModelSchema :=
  { name := "Item",
    fields :=
      [("title",
        { field_type := Ty.str, min_length := Option.some 1,
          max_length := Option.some 255,
          description := Option.some "Item title",
          business_constraints := ["content_filter"],
          ui_hints := ["placeholder"] }),
       ("description",
        { field_type := Ty.opt Ty.str, default := Value.none,
          max_length := Option.some 255,
          description := Option.some "Item description",
          business_constraints := ["content_filter", "markdown_allowed"] }),
       ("owner_id",
        { field_type := Ty.uuid, foreign_key := Option.some "user.id",
          nullable := false,
          description := Option.some "ID of the item owner" }),
       ("id",
        { field_type := Ty.uuid, primary_key := true })],
    relationships :=
      [("owner",
        { type := Ty.opt (Ty.modelRef "User"),
          back_populates := Option.some "items" })] }

/-- A freshly constructed factory for a schema (all caches empty).  The
concrete subclasses `UserModelFactory`/`ItemModelFactory` differ from
`BaseModelFactory` only in the schema they supply and in validation /
business-rule hooks that are never consulted by model generation. -/
def freshFactory (s : ModelSchema) : Factory := { schema := s }

/-- The `UserModelFactory()` instance. -/
def userFactory : Factory := freshFactory user_schema

/-- The `ItemModelFactory()` instance. -/
def itemFactory : Factory := freshFactory item_schema

/-- `ModelFactoryRegistry`: the class-level `_factories` dict. -/
structure Registry where
  factories : List (String × Factory) := []
deriving DecidableEq, Repr

/-- `ModelFactoryRegistry.register`. -/
def Registry.register (r : Registry) (name : String) (f : Factory) : Registry :=
  { r with factories := dictInsert r.factories name f }

/-- `ModelFactoryRegistry.get_factory`: raises
`ValueError(f"No factory registered for {name}")` when the name is absent,
embedded as `Except.error`. -/
def Registry.get_factory (r : Registry) (name : String) : Except String Factory :=
  match r.factories.find? (fun p => p.1 = name) with
  | Option.none => Except.error ("No factory registered for " ++ name)
  | Option.some p => Except.ok p.2

/-- `ModelFactoryRegistry.get_all_models_for`. -/
def Registry.get_all_models_for (r : Registry) (entity_name : String) :
    Except String (List (String × Model)) := do
  let f ← r.get_factory entity_name
  pure (f.get_all_models).2

/-- `setup_model_factories`: registers the `User` and `Item` factories. -/
def setup_registry : Registry :=
  (Registry.register (Registry.register {} "User" userFactory) "Item" itemFactory)

/-- SQLModel's rule for a generated table column's NOT NULL constraint, used
to interpret the `Field` kwargs this code passes (library semantics: the
source never passes a `nullable` kwarg, so the column of a non-primary-key
field is nullable exactly when its declared type is `Optional[...]`). -/
def columnNullable (ty : Ty) (fd : FieldDef) : Bool :=
  !fd.primary_key && ty.isOpt

/-- Dict lookup in a generated field map. -/
def lookupField (l : List (String × Ty × FieldVal)) (n : String) :
    Option (Ty × FieldVal) :=
  (l.find? (fun p => p.1 = n)).map (fun p => p.2)

/-- The `default` kwarg carried by a generated field map value. -/
def FieldVal.defaultOf : FieldVal → Option Value
  | FieldVal.fld f => f.default
  | FieldVal.rel _ => Option.none

/-- Whether `_create_field` keeps a field of this name in this variant
(its two `return None` exclusions depend only on the name and the variant). -/
def includedIn (n t : String) : Bool :=
  decide (¬((t = "update_me" ∧ (n = "password" ∨ n = "is_superuser")) ∨
            (t = "public" ∧ (n = "hashed_password" ∨ n = "password"))))

/-- The per-field step of `_generate_model_fields` (name, post-mutation type
and generated `Field`, or `Option.none` when the field is excluded). -/
def cfEntry (t : String) (p : String × FieldMetadata) :
    Option (String × Ty × FieldVal) :=
  Option.map (fun fd => (p.1, (createField p.1 p.2 t).1.field_type, FieldVal.fld fd))
    (createField p.1 p.2 t).2

/-- The scenario schema of the spec: fields
`{password, hashed_password, id, email}`. -/
def pw_schema : ModelSchema :=
  { name := "Account",
    fields :=
      [("password", { field_type := Ty.str }),
       ("hashed_password", { field_type := Ty.str }),
       ("id", { field_type := Ty.uuid }),
       ("email", { field_type := Ty.emailStr })] }

/-! ## Helper lemmas -/

lemma mkOptional_isOpt (t : Ty) : (mkOptional t).isOpt = true := by
  cases t <;> rfl

lemma applyStdConstraints_default (m : FieldMetadata) (kw : FieldDef) :
    (applyStdConstraints m kw).default = kw.default := by
  unfold applyStdConstraints
  rcases m.min_length with _ | a <;> rcases m.max_length with _ | b <;>
    by_cases hu : m.unique <;> by_cases hi : m.index <;>
    simp [hu, hi] <;> split_ifs <;> rfl

lemma applyStdConstraints_default_factory (m : FieldMetadata) (kw : FieldDef) :
    (applyStdConstraints m kw).default_factory_uuid4 = kw.default_factory_uuid4 := by
  unfold applyStdConstraints
  rcases m.min_length with _ | a <;> rcases m.max_length with _ | b <;>
    by_cases hu : m.unique <;> by_cases hi : m.index <;>
    simp [hu, hi] <;> split_ifs <;> rfl

lemma applyStdConstraints_primary_key (m : FieldMetadata) (kw : FieldDef) :
    (applyStdConstraints m kw).primary_key = kw.primary_key := by
  unfold applyStdConstraints
  rcases m.min_length with _ | a <;> rcases m.max_length with _ | b <;>
    by_cases hu : m.unique <;> by_cases hi : m.index <;>
    simp [hu, hi] <;> split_ifs <;> rfl

lemma applyStdConstraints_foreign_key (m : FieldMetadata) (kw : FieldDef) :
    (applyStdConstraints m kw).foreign_key = kw.foreign_key := by
  unfold applyStdConstraints
  rcases m.min_length with _ | a <;> rcases m.max_length with _ | b <;>
    by_cases hu : m.unique <;> by_cases hi : m.index <;>
    simp [hu, hi] <;> split_ifs <;> rfl

lemma createField_base (n : String) (m : FieldMetadata) :
    createField n m "base" = (m, Option.some (applyStdConstraints m {})) := by
  simp [createField]

lemma createField_create (n : String) (m : FieldMetadata) :
    createField n m "create" =
      (m, Option.some (
        let kw : FieldDef :=
          if m.nullable ∧ n ≠ "id" then { default := Option.some m.default } else {}
        let kw := applyStdConstraints m kw
        if n = "email" then { kw with max_length := Option.some 255 } else kw)) := by
  simp [createField]

lemma createField_update (n : String) (m : FieldMetadata) :
    createField n m "update" =
      if n = "id" then (m, Option.some (applyStdConstraints m {}))
      else
        (let m' := { m with field_type := mkOptional m.field_type }
         (m', Option.some (
           let kw := applyStdConstraints m' { default := Option.some Value.none }
           if n = "email" then { kw with max_length := Option.some 255 } else kw))) := by
  by_cases h : n = "id" <;> simp [createField, h]

lemma createField_update_me (n : String) (m : FieldMetadata) :
    createField n m "update_me" =
      if n = "password" ∨ n = "is_superuser" then (m, Option.none)
      else
        (let m' := { m with field_type := mkOptional m.field_type }
         (m', Option.some (applyStdConstraints m' { default := Option.some Value.none }))) := by
  by_cases h : n = "password" ∨ n = "is_superuser" <;> simp [createField, h]

lemma createField_table (n : String) (m : FieldMetadata) :
    createField n m "table" =
      (m, Option.some (applyStdConstraints m
        { default_factory_uuid4 := n = "id", primary_key := n = "id",
          foreign_key := m.foreign_key })) := by
  by_cases h : n = "id" <;> rcases hfk : m.foreign_key with _ | fk <;>
    simp [createField, h, hfk]

lemma createField_public (n : String) (m : FieldMetadata) :
    createField n m "public" =
      if n = "hashed_password" ∨ n = "password" then (m, Option.none)
      else (m, Option.some (applyStdConstraints m {})) := by
  by_cases h : n = "hashed_password" ∨ n = "password" <;> simp [createField, h]

lemma createField_isSome (n t : String) (m : FieldMetadata) :
    ((createField n m t).2).isSome = includedIn n t := by
  unfold createField includedIn
  by_cases h1 : t = "update_me" ∧ (n = "password" ∨ n = "is_superuser") <;>
    by_cases h2 : t = "public" ∧ (n = "hashed_password" ∨ n = "password") <;>
    simp [h1, h2]

lemma any_keys {α : Type} (l : List (String × α)) (k : String) :
    (l.any fun p => decide (p.1 = k)) = ((l.map (fun p => p.1)).any fun x => decide (x = k)) := by
  induction l <;> simp_all

lemma keys_map_replace {α : Type} (l : List (String × α)) (k : String) (v : α) :
    (l.map (fun p => if p.1 = k then (k, v) else p)).map (fun p => p.1) =
      l.map (fun p => p.1) := by
  induction l with
  | nil => rfl
  | cons hd tl ih =>
    by_cases hh : hd.1 = k <;> simp_all

lemma keys_dictInsert {α : Type} (l : List (String × α)) (k : String) (v : α) :
    (dictInsert l k v).map (fun p => p.1) =
      if (l.map (fun p => p.1)).any (fun x => x = k) then l.map (fun p => p.1)
      else l.map (fun p => p.1) ++ [k] := by
  unfold dictInsert
  rw [any_keys]
  split_ifs with h
  · exact keys_map_replace l k v
  · simp

lemma mem_keys_dictInsert {α : Type} (l : List (String × α)) (k : String) (v : α)
    (n : String) :
    n ∈ (dictInsert l k v).map (fun p => p.1) ↔
      (n ∈ l.map (fun p => p.1) ∨ n = k) := by
  rw [keys_dictInsert]
  split_ifs with h
  · simp only [List.any_eq_true, decide_eq_true_eq] at h
    obtain ⟨x, hx, hxk⟩ := h
    constructor
    · exact fun hm => Or.inl hm
    · rintro (hm | hm)
      · exact hm
      · subst hm; exact hxk ▸ hx
  · simp

lemma keys_foldl_dictInsert_congr {α β : Type} (rels : List (String × β))
    (g g' : String × β → α) (acc acc' : List (String × α))
    (h : acc.map (fun p => p.1) = acc'.map (fun p => p.1)) :
    (rels.foldl (fun a r => dictInsert a r.1 (g r)) acc).map (fun p => p.1) =
      (rels.foldl (fun a r => dictInsert a r.1 (g' r)) acc').map (fun p => p.1) := by
  induction rels generalizing acc acc' with
  | nil => simpa using h
  | cons hd tl ih =>
    simp only [List.foldl_cons]
    refine ih _ _ ?_
    rw [keys_dictInsert, keys_dictInsert, h]

lemma mem_keys_foldl_dictInsert {α : Type}
    (own : List (String × α)) (acc : List (String × α)) (n : String) :
    n ∈ ((own.foldl (fun a f => dictInsert a f.1 f.2) acc).map (fun p => p.1)) ↔
      (n ∈ acc.map (fun p => p.1) ∨ n ∈ own.map (fun p => p.1)) := by
  induction own generalizing acc with
  | nil => simp
  | cons hd tl ih =>
    simp only [List.foldl_cons, ih, mem_keys_dictInsert, List.map_cons, List.mem_cons]
    tauto

lemma gmf_snd (s : ModelSchema) (t : String) (h : ¬(t = "table")) :
    (generateModelFields s t).2 = s.fields.filterMap (cfEntry t) := by
  simp only [generateModelFields]
  rw [if_neg h, List.filterMap_map]
  rfl

lemma gmf_snd_table (s : ModelSchema) :
    (generateModelFields s "table").2 =
      s.relationships.foldl (fun acc r => dictInsert acc r.1 (r.2.type, FieldVal.rel r.2))
        (s.fields.filterMap (cfEntry "table")) := by
  simp only [generateModelFields]
  simp only [if_true]
  rw [List.filterMap_map]
  rfl

lemma gmf_fst (s : ModelSchema) (t : String) :
    (generateModelFields s t).1 =
      { s with fields := s.fields.map (fun p => (p.1, (createField p.1 p.2 t).1)) } := by
  simp only [generateModelFields]
  rw [List.map_map]
  rfl

lemma generateModelFields_base (s : ModelSchema) :
    generateModelFields s "base" =
      (s, s.fields.map (fun p =>
        (p.1, p.2.field_type, FieldVal.fld (applyStdConstraints p.2 {})))) := by
  unfold generateModelFields
  simp [createField_base, List.filterMap_map, Function.comp]
  refine ⟨?_, ?_⟩
  · cases s with
    | mk name fields relationships =>
      simp only [ModelSchema.mk.injEq, and_true, true_and]
      induction fields with
      | nil => rfl
      | cons hd tl ih => simp_all
  · induction s.fields with
    | nil => rfl
    | cons hd tl ih => simp [List.filterMap_cons, ih]

lemma create_spec (l : List (String × FieldMetadata)) :
    ((l.filterMap (cfEntry "create")).map (fun p => p.1) = l.map (fun p => p.1)) ∧
    List.Forall₂ (fun (a : String × Ty × FieldVal) (b : String × FieldMetadata) =>
        FieldVal.defaultOf a.2.2 =
          (if b.2.nullable ∧ b.1 ≠ "id" then Option.some b.2.default else Option.none))
      (l.filterMap (cfEntry "create")) l := by
  induction l with
  | nil => simp
  | cons hd tl ih =>
    have hcf : cfEntry "create" hd = Option.some (hd.1, hd.2.field_type, FieldVal.fld
        (let kw : FieldDef :=
           if hd.2.nullable ∧ hd.1 ≠ "id" then { default := Option.some hd.2.default } else {}
         let kw := applyStdConstraints hd.2 kw
         if hd.1 = "email" then { kw with max_length := Option.some 255 } else kw)) := by
      unfold cfEntry
      rw [createField_create]
      rfl
    refine ⟨?_, ?_⟩
    · simp only [List.filterMap_cons, hcf, List.map_cons]
      rw [ih.1]
    · simp only [List.filterMap_cons, hcf]
      refine List.Forall₂.cons ?_ ih.2
      simp only [FieldVal.defaultOf]
      by_cases he : hd.1 = "email" <;> by_cases hn : hd.2.nullable ∧ hd.1 ≠ "id" <;>
        by_cases hnul : hd.2.nullable = true <;>
        simp_all [applyStdConstraints_default]

lemma update_spec (l : List (String × FieldMetadata)) :
    ((l.filterMap (cfEntry "update")).map (fun p => p.1) = l.map (fun p => p.1)) ∧
    List.Forall₂ (fun (a : String × Ty × FieldVal) (b : String × FieldMetadata) =>
        if b.1 = "id" then
          a.2.1 = b.2.field_type ∧ FieldVal.defaultOf a.2.2 = Option.none
        else
          a.2.1 = mkOptional b.2.field_type ∧
            FieldVal.defaultOf a.2.2 = Option.some Value.none)
      (l.filterMap (cfEntry "update")) l := by
  induction l with
  | nil => simp
  | cons hd tl ih =>
    by_cases hid : hd.1 = "id"
    · have hcf : cfEntry "update" hd =
          Option.some (hd.1, hd.2.field_type,
            FieldVal.fld (applyStdConstraints hd.2 {})) := by
        unfold cfEntry
        rw [createField_update, if_pos hid]
        rfl
      refine ⟨?_, ?_⟩
      · simp only [List.filterMap_cons, hcf, List.map_cons]
        rw [ih.1]
      · simp only [List.filterMap_cons, hcf]
        refine List.Forall₂.cons ?_ ih.2
        simp [hid, FieldVal.defaultOf, applyStdConstraints_default]
    · have hcf : cfEntry "update" hd =
          Option.some (hd.1, mkOptional hd.2.field_type, FieldVal.fld
            (let kw := applyStdConstraints { hd.2 with field_type := mkOptional hd.2.field_type }
               { default := Option.some Value.none }
             if hd.1 = "email" then { kw with max_length := Option.some 255 } else kw)) := by
        unfold cfEntry
        rw [createField_update, if_neg hid]
        rfl
      refine ⟨?_, ?_⟩
      · simp only [List.filterMap_cons, hcf, List.map_cons]
        rw [ih.1]
      · simp only [List.filterMap_cons, hcf]
        refine List.Forall₂.cons ?_ ih.2
        simp only [FieldVal.defaultOf]
        by_cases he : hd.1 = "email" <;>
          simp [hid, he, applyStdConstraints_default]

lemma update_me_spec (l : List (String × FieldMetadata)) :
    ((l.filterMap (cfEntry "update_me")).map (fun p => p.1)
       = (l.map (fun p => p.1)).filter
           (fun n => decide (¬(n = "password" ∨ n = "is_superuser")))) ∧
    List.Forall (fun (p : String × Ty × FieldVal) =>
        p.2.1.isOpt = true ∧ FieldVal.defaultOf p.2.2 = Option.some Value.none)
      (l.filterMap (cfEntry "update_me")) := by
  induction l with
  | nil => simp
  | cons hd tl ih =>
    by_cases hex : hd.1 = "password" ∨ hd.1 = "is_superuser"
    · have hcf : cfEntry "update_me" hd = Option.none := by
        unfold cfEntry
        rw [createField_update_me, if_pos hex]
        rfl
      refine ⟨?_, ?_⟩
      · simp only [List.filterMap_cons, hcf, List.map_cons, List.filter_cons]
        rw [ih.1]
        simp [hex]
      · simp only [List.filterMap_cons, hcf]
        exact ih.2
    · have hcf : cfEntry "update_me" hd =
          Option.some (hd.1, mkOptional hd.2.field_type, FieldVal.fld
            (applyStdConstraints { hd.2 with field_type := mkOptional hd.2.field_type }
               { default := Option.some Value.none })) := by
        unfold cfEntry
        rw [createField_update_me, if_neg hex]
        rfl
      refine ⟨?_, ?_⟩
      · simp only [List.filterMap_cons, hcf, List.map_cons, List.filter_cons]
        rw [ih.1]
        simp [hex]
      · simp only [List.filterMap_cons, hcf]
        rw [List.forall_cons]
        exact ⟨⟨mkOptional_isOpt _, by simp [FieldVal.defaultOf, applyStdConstraints_default]⟩,
          ih.2⟩

lemma public_spec (l : List (String × FieldMetadata)) :
    (l.filterMap (cfEntry "public")).map (fun p => p.1)
       = (l.map (fun p => p.1)).filter
           (fun n => decide (¬(n = "hashed_password" ∨ n = "password"))) := by
  induction l with
  | nil => simp
  | cons hd tl ih =>
    by_cases hex : hd.1 = "hashed_password" ∨ hd.1 = "password"
    · have hcf : cfEntry "public" hd = Option.none := by
        unfold cfEntry
        rw [createField_public, if_pos hex]
        rfl
      simp only [List.filterMap_cons, hcf, List.map_cons, List.filter_cons]
      rw [ih]
      simp [hex]
    · have hcf : cfEntry "public" hd =
          Option.some (hd.1, hd.2.field_type,
            FieldVal.fld (applyStdConstraints hd.2 {})) := by
        unfold cfEntry
        rw [createField_public, if_neg hex]
        rfl
      simp only [List.filterMap_cons, hcf, List.map_cons, List.filter_cons]
      rw [ih]
      simp [hex]

lemma cfEntry_names (t : String) (p : String × FieldMetadata) :
    (cfEntry t p).map (fun q => q.1)
      = if includedIn p.1 t then Option.some p.1 else Option.none := by
  unfold cfEntry
  have h := createField_isSome p.1 t p.2
  rcases hcf : (createField p.1 p.2 t).2 with _ | fd <;> rw [hcf] at h <;>
    simp at h <;> simp [hcf, h]

lemma filterMap_names_pure (t : String) (l l' : List (String × FieldMetadata))
    (hf : l.map (fun p => p.1) = l'.map (fun p => p.1)) :
    (l.filterMap (cfEntry t)).map (fun p => p.1)
      = (l'.filterMap (cfEntry t)).map (fun p => p.1) := by
  induction l generalizing l' with
  | nil =>
    have : l' = [] := by
      cases l' with
      | nil => rfl
      | cons hd tl => simp at hf
    subst this
    rfl
  | cons hd tl ih =>
    cases l' with
    | nil => simp at hf
    | cons hd' tl' =>
      simp only [List.map_cons, List.cons.injEq] at hf
      obtain ⟨h1, h2⟩ := hf
      simp only [List.filterMap_cons]
      have e1 := cfEntry_names t hd
      have e2 := cfEntry_names t hd'
      rw [h1] at e1
      rw [← e2] at e1
      rcases hcf : cfEntry t hd with _ | v <;> rcases hcf' : cfEntry t hd' with _ | v' <;>
        rw [hcf, hcf'] at e1 <;> simp at e1
      · exact ih tl' h2
      · simp [ih tl' h2, e1]

lemma gmf_fst_names (s : ModelSchema) (t : String) :
    ((generateModelFields s t).1).fields.map (fun p => p.1) = s.fields.map (fun p => p.1) := by
  rw [gmf_fst]
  simp

lemma gmf_fst_rel (s : ModelSchema) (t : String) :
    ((generateModelFields s t).1).relationships = s.relationships := by
  rw [gmf_fst]

lemma gmf_names_pure (s s' : ModelSchema) (t : String)
    (hf : s.fields.map (fun p => p.1) = s'.fields.map (fun p => p.1))
    (hr : s.relationships = s'.relationships) :
    ((generateModelFields s t).2).map (fun p => p.1)
      = ((generateModelFields s' t).2).map (fun p => p.1) := by
  by_cases ht : t = "table"
  · subst ht
    rw [gmf_snd_table, gmf_snd_table, hr]
    exact keys_foldl_dictInsert_congr _ _ _ _ _ (filterMap_names_pure _ _ _ hf)
  · rw [gmf_snd _ _ ht, gmf_snd _ _ ht]
    exact filterMap_names_pure _ _ _ hf

lemma second_base (f : Factory) :
    (f.get_base_model.1).get_base_model = f.get_base_model := by
  cases h : f.base_model <;> simp [Factory.get_base_model, h]

lemma second_create (f : Factory) :
    (f.get_create_model.1).get_create_model = f.get_create_model := by
  cases h : f.create_model <;> simp [Factory.get_create_model, h]

lemma second_update (f : Factory) :
    (f.get_update_model.1).get_update_model = f.get_update_model := by
  cases h : f.update_model <;> simp [Factory.get_update_model, h]

lemma second_update_me (f : Factory) :
    (f.get_update_me_model.1).get_update_me_model = f.get_update_me_model := by
  cases h : f.update_me_model <;> simp [Factory.get_update_me_model, h]

lemma second_table (f : Factory) :
    (f.get_table_model.1).get_table_model = f.get_table_model := by
  cases h : f.table_model <;> simp [Factory.get_table_model, h]

lemma second_public (f : Factory) :
    (f.get_public_model.1).get_public_model = f.get_public_model := by
  cases h : f.public_model <;> simp [Factory.get_public_model, h]

lemma second_list_public (f : Factory) :
    (f.get_list_public_model.1).get_list_public_model = f.get_list_public_model := by
  cases h : f.list_public_model <;> simp [Factory.get_list_public_model, h]

lemma fresh_base_ownFields (s : ModelSchema) :
    ((freshFactory s).get_base_model).2.ownFields =
      s.fields.map (fun p => (p.1, p.2.field_type, FieldVal.fld (applyStdConstraints p.2 {}))) := by
  simp [Factory.get_base_model, freshFactory, generateModelFields_base]

lemma fresh_create_ownFields (s : ModelSchema) :
    ((freshFactory s).get_create_model).2.ownFields = s.fields.filterMap (cfEntry "create") := by
  simp only [Factory.get_create_model, Factory.get_base_model, freshFactory]
  simp [generateModelFields_base, gmf_snd s "create" (by decide)]

lemma fresh_update_ownFields (s : ModelSchema) :
    ((freshFactory s).get_update_model).2.ownFields = s.fields.filterMap (cfEntry "update") := by
  simp only [Factory.get_update_model, Factory.get_base_model, freshFactory]
  simp [generateModelFields_base, gmf_snd s "update" (by decide)]

lemma fresh_update_me_ownFields (s : ModelSchema) :
    ((freshFactory s).get_update_me_model).2.ownFields
      = s.fields.filterMap (cfEntry "update_me") := by
  simp only [Factory.get_update_me_model, freshFactory]
  simp [gmf_snd s "update_me" (by decide)]

lemma forall_mem_fieldSet (m : Model) (pf : String × List (String × Ty × FieldVal))
    (h : m.base = Option.some pf) :
    List.Forall (fun p => p.1 ∈ m.fieldNames) pf.2 ∧
    List.Forall (fun p => p.1 ∈ m.fieldNames) m.ownFields := by
  unfold Model.fieldNames Model.fieldSet
  rw [h]
  constructor <;> rw [List.forall_iff_forall_mem] <;> intro x hx <;>
    rw [mem_keys_foldl_dictInsert]
  · exact Or.inl (List.mem_map_of_mem _ hx)
  · exact Or.inr (List.mem_map_of_mem _ hx)

lemma fieldSet_of_base_none (m : Model) (h : m.base = Option.none) :
    m.fieldSet = m.ownFields := by
  unfold Model.fieldSet
  rw [h]

lemma fresh_create_base (s : ModelSchema) :
    ((freshFactory s).get_create_model).2.base
      = Option.some (((freshFactory s).get_base_model).2.name,
                     ((freshFactory s).get_base_model).2.ownFields) := by
  simp [Factory.get_create_model, Factory.get_base_model, freshFactory]

lemma fresh_update_base (s : ModelSchema) :
    ((freshFactory s).get_update_model).2.base
      = Option.some (((freshFactory s).get_base_model).2.name,
                     ((freshFactory s).get_base_model).2.ownFields) := by
  simp [Factory.get_update_model, Factory.get_base_model, freshFactory]

lemma fresh_table_base (s : ModelSchema) :
    ((freshFactory s).get_table_model).2.base
      = Option.some (((freshFactory s).get_base_model).2.name,
                     ((freshFactory s).get_base_model).2.ownFields) := by
  simp [Factory.get_table_model, Factory.get_base_model, freshFactory]

lemma fresh_public_base (s : ModelSchema) :
    ((freshFactory s).get_public_model).2.base
      = Option.some (((freshFactory s).get_base_model).2.name,
                     ((freshFactory s).get_base_model).2.ownFields) := by
  simp [Factory.get_public_model, Factory.get_base_model, freshFactory]

lemma fresh_update_me_base (s : ModelSchema) :
    ((freshFactory s).get_update_me_model).2.base = Option.none := by
  simp [Factory.get_update_me_model, freshFactory]

lemma fresh_list_public_base (s : ModelSchema) :
    ((freshFactory s).get_list_public_model).2.base = Option.none := by
  simp [Factory.get_list_public_model, Factory.get_public_model,
    Factory.get_base_model, freshFactory]

/-! ## Claim theorems -/

/-- C1: the claim says the public variant's field set never contains
`password`/`hashed_password` and always contains `id`.  The fields generated
for the `public` variant do satisfy this, but `get_public_model` builds the
class on top of the base model, which contains every schema field, so the
User public model's inherited field set does contain `password` and
`hashed_password` — contradicting the claim and the method's own docstring
("Excludes sensitive fields and includes required ID field"). -/
theorem C1_public_model_leaks_password :
    "password" ∈ (userFactory.get_public_model).2.fieldNames ∧
    "hashed_password" ∈ (userFactory.get_public_model).2.fieldNames ∧
    "id" ∈ (userFactory.get_public_model).2.fieldNames ∧
    "password" ∉ ((userFactory.get_public_model).2.ownFields.map (fun p => p.1)) ∧
    "hashed_password" ∉ ((userFactory.get_public_model).2.ownFields.map (fun p => p.1)) ∧
    "id" ∈ ((userFactory.get_public_model).2.ownFields.map (fun p => p.1)) := by
  decide

/-- C2 counterexample: on the scenario schema `{password, hashed_password,
id, email}` the base variant retains `password`, `hashed_password` and `id`,
refuting the claimed exclusions. -/
theorem C2_counterexample :
    "password" ∈ ((freshFactory pw_schema).get_base_model).2.ownFields.map (fun p => p.1) ∧
    "hashed_password" ∈ ((freshFactory pw_schema).get_base_model).2.ownFields.map (fun p => p.1) ∧
    "id" ∈ ((freshFactory pw_schema).get_base_model).2.ownFields.map (fun p => p.1) := by
  decide

/-- C2 amended: for every schema, `get_base_model` excludes nothing — every
schema field appears, in order, with its declared type; on the scenario
schema the base variant contains exactly
`{password, hashed_password, id, email}`. -/
theorem C2_base_passthrough :
    (∀ s : ModelSchema,
      ((freshFactory s).get_base_model).2.ownFields.map (fun p => (p.1, p.2.1))
        = s.fields.map (fun p => (p.1, p.2.field_type))) ∧
    ((freshFactory pw_schema).get_base_model).2.ownFields.map (fun p => p.1)
        = ["password", "hashed_password", "id", "email"] := by
  constructor
  · intro s
    rw [fresh_base_ownFields]
    simp
  · decide

/-- C3 counterexample: the User `update_me` variant retains
`hashed_password` and `id`, refuting the claimed exclusions. -/
theorem C3_counterexample :
    "hashed_password" ∈ (userFactory.get_update_me_model).2.fieldNames ∧
    "id" ∈ (userFactory.get_update_me_model).2.fieldNames := by
  decide

/-- C3 amended: for every schema, `get_update_me_model` excludes exactly the
fields named `password` and `is_superuser`; every remaining field (including
`hashed_password` and `id`, when present) becomes optional with the
unset/`None` default. -/
theorem C3_update_me_fields :
    ∀ s : ModelSchema,
      (((freshFactory s).get_update_me_model).2.ownFields.map (fun p => p.1)
        = (s.fields.map (fun p => p.1)).filter
            (fun n => decide (¬(n = "password" ∨ n = "is_superuser")))) ∧
      List.Forall (fun (p : String × Ty × FieldVal) =>
          p.2.1.isOpt = true ∧ FieldVal.defaultOf p.2.2 = Option.some Value.none)
        ((freshFactory s).get_update_me_model).2.ownFields := by
  intro s
  rw [fresh_update_me_ownFields]
  exact update_me_spec s.fields

/-- C4 counterexample: the `create` variant retains `owner_id` and `id`
(Item) and `hashed_password` (User), refuting the claimed exclusions. -/
theorem C4_counterexample :
    "owner_id" ∈ (itemFactory.get_create_model).2.fieldNames ∧
    "id" ∈ (itemFactory.get_create_model).2.fieldNames ∧
    "hashed_password" ∈ (userFactory.get_create_model).2.fieldNames := by
  decide

/-- C4 amended: for every schema, `get_create_model` excludes nothing — its
field names are exactly the schema's — and a generated field carries a
`default` kwarg exactly when the metadata is nullable and the field is not
named `id`, in which case the default is the metadata's declared default. -/
theorem C4_create_fields :
    ∀ s : ModelSchema,
      (((freshFactory s).get_create_model).2.ownFields.map (fun p => p.1)
        = s.fields.map (fun p => p.1)) ∧
      List.Forall₂ (fun (a : String × Ty × FieldVal) (b : String × FieldMetadata) =>
          FieldVal.defaultOf a.2.2 =
            (if b.2.nullable ∧ b.1 ≠ "id" then Option.some b.2.default else Option.none))
        ((freshFactory s).get_create_model).2.ownFields s.fields := by
  intro s
  rw [fresh_create_ownFields]
  exact create_spec s.fields

/-- C5 counterexample: the User `update` variant retains `id` and
`hashed_password`, and `id` is not optional (its type stays `uuid.UUID` with
no default), refuting both halves of the claim. -/
theorem C5_counterexample :
    "id" ∈ (userFactory.get_update_model).2.fieldNames ∧
    "hashed_password" ∈ (userFactory.get_update_model).2.fieldNames ∧
    lookupField (userFactory.get_update_model).2.ownFields "id"
      = Option.some (Ty.uuid, FieldVal.fld {}) ∧
    Ty.uuid.isOpt = false := by
  decide

/-- C5 amended: for every schema, `get_update_model` excludes nothing; every
field except the one named `id` becomes `Optional[...]` with `None` default,
while `id` keeps its declared type and gets no default. -/
theorem C5_update_fields :
    ∀ s : ModelSchema,
      (((freshFactory s).get_update_model).2.ownFields.map (fun p => p.1)
        = s.fields.map (fun p => p.1)) ∧
      List.Forall₂ (fun (a : String × Ty × FieldVal) (b : String × FieldMetadata) =>
          if b.1 = "id" then
            a.2.1 = b.2.field_type ∧ FieldVal.defaultOf a.2.2 = Option.none
          else
            a.2.1 = mkOptional b.2.field_type ∧
              FieldVal.defaultOf a.2.2 = Option.some Value.none)
        ((freshFactory s).get_update_model).2.ownFields s.fields := by
  intro s
  rw [fresh_update_ownFields]
  exact update_spec s.fields

/-- C6 counterexample: in the model set the program actually builds
(`get_all_models`, as used by `models.py`), the Item table model's
`owner_id` field has type `Optional[uuid.UUID]` (the update variants mutated
the shared metadata first), so the generated column is nullable — refuting
the claimed non-nullable column for `owner_id` with `nullable=False`
metadata. -/
theorem C6_counterexample :
    ((itemFactory.get_all_models).2.lookup "table").map
        (fun m => lookupField m.ownFields "owner_id") =
      Option.some (Option.some (Ty.opt Ty.uuid,
        FieldVal.fld { foreign_key := Option.some "user.id" })) ∧
    columnNullable (Ty.opt Ty.uuid) { foreign_key := Option.some "user.id" } = true := by
  decide

/-- C6 amended: in the table variant the `id` field is marked primary key
with a `uuid.uuid4` default factory, and every field's foreign-key reference
is attached; but the metadata's `nullable` flag has no effect whatsoever on
the generated field (no inversion — the generated kwargs are identical for
either flag value), column nullability following only the declared type;
on a fresh Item factory `owner_id` keeps type `uuid.UUID` and its column is
non-nullable. -/
theorem C6_table_fields :
    (∀ m : FieldMetadata,
      ((createField "id" m "table").2).map (fun fd => (fd.primary_key, fd.default_factory_uuid4))
        = Option.some (true, true)) ∧
    (∀ (n : String) (m : FieldMetadata),
      ((createField n m "table").2).map (fun fd => fd.foreign_key) = Option.some m.foreign_key) ∧
    (∀ (n : String) (m : FieldMetadata) (b : Bool),
      (createField n m "table").2 = (createField n { m with nullable := b } "table").2) ∧
    (lookupField ((itemFactory.get_table_model).2.ownFields) "owner_id"
        = Option.some (Ty.uuid, FieldVal.fld { foreign_key := Option.some "user.id" }) ∧
     columnNullable Ty.uuid { foreign_key := Option.some "user.id" } = false ∧
     lookupField ((itemFactory.get_table_model).2.ownFields) "id"
        = Option.some (Ty.uuid,
            FieldVal.fld { default_factory_uuid4 := true, primary_key := true })) := by
  refine ⟨?_, ?_, ?_, by decide⟩
  · intro m
    rw [createField_table]
    simp [applyStdConstraints_primary_key, applyStdConstraints_default_factory]
  · intro n m
    rw [createField_table]
    simp [applyStdConstraints_foreign_key]
  · intro n m b
    rw [createField_table, createField_table]
    rfl

/-- C7 counterexample: the table variant's `email` entry has type
`EmailStr` on a fresh User factory but `Optional[EmailStr]` when the update
variant was derived first — the derived (name, type) pairs are not a pure
function of the schema alone. -/
theorem C7_counterexample :
    (lookupField ((userFactory.get_table_model).2.ownFields) "email").map (fun p => p.1)
      = Option.some Ty.emailStr ∧
    (lookupField (((userFactory.get_update_model).1.get_table_model).2.ownFields) "email").map
        (fun p => p.1)
      = Option.some (Ty.opt Ty.emailStr) := by
  decide

/-- C7 amended: a second call to any `get_<variant>_model` returns the
cached class and leaves the factory unchanged, and the derived variant's
field NAME set is a pure function of the schema (unchanged by deriving any
other variant first); the (name, type) pairs are not pure, because
update/update_me derivation mutates the stored metadata types. -/
theorem C7_memoization_and_name_purity :
    (∀ f : Factory,
      (f.get_base_model.1).get_base_model = f.get_base_model ∧
      (f.get_create_model.1).get_create_model = f.get_create_model ∧
      (f.get_update_model.1).get_update_model = f.get_update_model ∧
      (f.get_update_me_model.1).get_update_me_model = f.get_update_me_model ∧
      (f.get_table_model.1).get_table_model = f.get_table_model ∧
      (f.get_public_model.1).get_public_model = f.get_public_model ∧
      (f.get_list_public_model.1).get_list_public_model = f.get_list_public_model) ∧
    (∀ (s : ModelSchema) (t t' : String),
      ((generateModelFields ((generateModelFields s t').1) t).2).map (fun p => p.1)
        = ((generateModelFields s t).2).map (fun p => p.1)) :=
  ⟨fun f => ⟨second_base f, second_create f, second_update f, second_update_me f,
    second_table f, second_public f, second_list_public f⟩,
   fun s t t' => gmf_names_pure _ _ t (gmf_fst_names s t') (gmf_fst_rel s t')⟩

/-- C8: looking up any unregistered name in the registry signals
`ValueError("No factory registered for {name}")` to the caller (embedded as
`Except.error`); no factory is returned and nothing is retried. -/
theorem C8_get_factory_error (r : Registry) (name : String)
    (h : r.factories.find? (fun p => p.1 = name) = Option.none) :
    r.get_factory name = Except.error ("No factory registered for " ++ name) := by
  unfold Registry.get_factory
  rw [h]

/-- C8 witness: `"Order"` is unregistered in the startup registry and the
lookup yields exactly the error "No factory registered for Order". -/
theorem C8_get_factory_error_witness :
    setup_registry.factories.find? (fun p => p.1 = "Order") = Option.none ∧
    setup_registry.get_factory "Order" = Except.error "No factory registered for Order" := by
  refine ⟨by decide, ?_⟩
  rw [C8_get_factory_error setup_registry "Order" (by decide)]
  rfl

/-- C9: for every registered entity, `get_all_models_for` succeeds and its
key set is exactly the seven variant keys, in dict order. -/
theorem C9_all_models_keys (r : Registry) (name : String) (f : Factory)
    (h : r.get_factory name = Except.ok f) :
    r.get_all_models_for name = Except.ok (f.get_all_models).2 ∧
    ((f.get_all_models).2).map (fun p => p.1)
      = ["base", "create", "update", "update_me", "table", "public", "list_public"] := by
  constructor
  · unfold Registry.get_all_models_for
    rw [h]
    rfl
  · rfl

/-- C9 witness: the registered entity `"User"`. -/
theorem C9_all_models_keys_witness :
    setup_registry.get_factory "User" = Except.ok userFactory ∧
    (setup_registry.get_all_models_for "User" = Except.ok ((userFactory.get_all_models).2) ∧
     ((userFactory.get_all_models).2).map (fun p => p.1)
       = ["base", "create", "update", "update_me", "table", "public", "list_public"]) :=
  ⟨by rfl, C9_all_models_keys setup_registry "User" userFactory (by rfl)⟩

/-- C10: the create/update/table/public variants are built with the base
variant as `__base__`, so their effective field sets include every base
field as well as their own; update_me and list_public are built directly on
the `SQLModel` root and contain only their own generated fields. -/
theorem C10_inheritance :
    ∀ s : ModelSchema,
      (((freshFactory s).get_create_model).2.base
          = Option.some (((freshFactory s).get_base_model).2.name,
                         ((freshFactory s).get_base_model).2.ownFields) ∧
       ((freshFactory s).get_update_model).2.base
          = Option.some (((freshFactory s).get_base_model).2.name,
                         ((freshFactory s).get_base_model).2.ownFields) ∧
       ((freshFactory s).get_table_model).2.base
          = Option.some (((freshFactory s).get_base_model).2.name,
                         ((freshFactory s).get_base_model).2.ownFields) ∧
       ((freshFactory s).get_public_model).2.base
          = Option.some (((freshFactory s).get_base_model).2.name,
                         ((freshFactory s).get_base_model).2.ownFields)) ∧
      (List.Forall (fun (p : String × Ty × FieldVal) =>
           p.1 ∈ ((freshFactory s).get_create_model).2.fieldNames ∧
           p.1 ∈ ((freshFactory s).get_update_model).2.fieldNames ∧
           p.1 ∈ ((freshFactory s).get_table_model).2.fieldNames ∧
           p.1 ∈ ((freshFactory s).get_public_model).2.fieldNames)
         ((freshFactory s).get_base_model).2.ownFields ∧
       List.Forall (fun p => p.1 ∈ ((freshFactory s).get_create_model).2.fieldNames)
         ((freshFactory s).get_create_model).2.ownFields ∧
       List.Forall (fun p => p.1 ∈ ((freshFactory s).get_update_model).2.fieldNames)
         ((freshFactory s).get_update_model).2.ownFields ∧
       List.Forall (fun p => p.1 ∈ ((freshFactory s).get_table_model).2.fieldNames)
         ((freshFactory s).get_table_model).2.ownFields ∧
       List.Forall (fun p => p.1 ∈ ((freshFactory s).get_public_model).2.fieldNames)
         ((freshFactory s).get_public_model).2.ownFields) ∧
      (((freshFactory s).get_update_me_model).2.base = Option.none ∧
       ((freshFactory s).get_update_me_model).2.fieldSet
          = ((freshFactory s).get_update_me_model).2.ownFields ∧
       ((freshFactory s).get_list_public_model).2.base = Option.none ∧
       ((freshFactory s).get_list_public_model).2.fieldSet
          = ((freshFactory s).get_list_public_model).2.ownFields) := by
  intro s
  have hc := forall_mem_fieldSet _ _ (fresh_create_base s)
  have hu := forall_mem_fieldSet _ _ (fresh_update_base s)
  have ht := forall_mem_fieldSet _ _ (fresh_table_base s)
  have hp := forall_mem_fieldSet _ _ (fresh_public_base s)
  refine ⟨⟨fresh_create_base s, fresh_update_base s, fresh_table_base s, fresh_public_base s⟩,
    ⟨?_, hc.2, hu.2, ht.2, hp.2⟩,
    fresh_update_me_base s,
    fieldSet_of_base_none _ (fresh_update_me_base s),
    fresh_list_public_base s,
    fieldSet_of_base_none _ (fresh_list_public_base s)⟩
  have h1 := hc.1
  have h2 := hu.1
  have h3 := ht.1
  have h4 := hp.1
  rw [List.forall_iff_forall_mem] at h1 h2 h3 h4 ⊢
  intro x hx
  exact ⟨h1 x hx, h2 x hx, h3 x hx, h4 x hx⟩

end ModelFactory
